import Mathlib

/-!
Verification of `contribute.py` (Daily Open Source Contributor).

The script is embedded shallowly: the GitHub API is modelled as a function
from repository names to repository results, where a repository result is
either an error (an exception raised by `get_repo` or while iterating) or a
function from label strings to label results (an exception raised by
`get_issues`/iteration, or the list of open issues the query returns, newest
first).  Machine integers are `Int`/`Nat`; Python `None` is `Option`;
exceptions are explicit error constructors; the JSON log file is modelled by
its parsed value (`Option (List LogEntry)`, `none` when the file is absent).
-/

/-- The static target repository list (`TARGET_REPOS` in `contribute.py`). -/
def TARGET_REPOS : List String :=
  [ "apache/airflow"
  , "apache/spark"
  , "dbt-labs/dbt-core"
  , "tensorflow/tensorflow"
  , "pytorch/pytorch"
  , "pandas-dev/pandas"
  , "scikit-learn/scikit-learn"
  , "huggingface/transformers"
  , "mlflow/mlflow"
  , "ray-project/ray"
  , "dagster-io/dagster"
  , "prefecthq/prefect"
  , "great-expectations/great_expectations" ]

/-- The static label list (`LABELS_TO_SEARCH` in `contribute.py`). -/
def LABELS_TO_SEARCH : List String :=
  [ "good first issue"
  , "documentation"
  , "help wanted"
  , "beginner"
  , "easy" ]

/-- A GitHub issue as the script reads it: `number`, `title`, `html_url`,
`body` (possibly `None`), and the `pull_request` attribute, which is non-null
exactly when the issue is really a pull request. -/
structure Issue where
  number : Nat
  title : String
  url : String
  body : Option String
  pull_request : Option Unit
deriving Repr, DecidableEq

/-- The dict appended to `issues_found` in `find_good_issues`. -/
structure IssueRecord where
  repo : String
  number : Nat
  title : String
  url : String
  label : String
  body : String
deriving Repr, DecidableEq

/-- Building one record, mirroring the dict literal in `find_good_issues`:
`'body': issue.body[:200] if issue.body else ''` (Python treats both `None`
and the empty string as falsy). -/
def record_of (repo_name label : String) (issue : Issue) : IssueRecord :=
  { repo := repo_name
    number := issue.number
    title := issue.title
    url := issue.url
    label := label
    body := match issue.body with
      | none => ""
      | some b => if b = "" then "" else b.take 200 }

/-- Outcome of `repo.get_issues(state=open, labels=[label], sort=created,
direction=desc)` and of iterating its result: an exception, or the list of
issues returned. -/
inductive LabelResult where
  | err : LabelResult
  | ok : List Issue → LabelResult

/-- Outcome of `g.get_repo(repo_name)`: an exception, or a repository whose
issue listing per label is given by the function. -/
inductive RepoResult where
  | err : RepoResult
  | ok : (String → LabelResult) → RepoResult

/-- The loop `for issue in issues[:2]` of `find_good_issues`, already applied
to the truncated list: skip issues whose `pull_request` is non-null, append a
record for the rest, and after each append return (`true` flag) when
`len(issues_found) >= max_issues`. -/
def issues_loop (repo_name label : String) (max_issues : Int) :
    List Issue → List IssueRecord → List IssueRecord × Bool
  | [], acc => (acc, false)
  | issue :: rest, acc =>
    if issue.pull_request.isSome then
      issues_loop repo_name label max_issues rest acc
    else
      let acc' := acc ++ [record_of repo_name label issue]
      if max_issues ≤ (acc'.length : Int) then (acc', true)
      else issues_loop repo_name label max_issues rest acc'

/-- The loop `for label in LABELS_TO_SEARCH` of `find_good_issues`: an
exception while listing a label is caught and the label skipped; a `true`
flag from the inner loop propagates the early `return`. -/
def labels_loop (get_label : String → LabelResult) (repo_name : String)
    (max_issues : Int) :
    List String → List IssueRecord → List IssueRecord × Bool
  | [], acc => (acc, false)
  | label :: rest, acc =>
    match get_label label with
    | LabelResult.err => labels_loop get_label repo_name max_issues rest acc
    | LabelResult.ok issues =>
      match issues_loop repo_name label max_issues (issues.take 2) acc with
      | (acc', true) => (acc', true)
      | (acc', false) => labels_loop get_label repo_name max_issues rest acc'

/-- The loop `for repo_name in TARGET_REPOS` of `find_good_issues`: an
exception accessing a repository is caught and the repository skipped; the
early `return` ends the whole function. -/
def repos_loop (g : String → RepoResult) (max_issues : Int) :
    List String → List IssueRecord → List IssueRecord
  | [], acc => acc
  | repo_name :: rest, acc =>
    match g repo_name with
    | RepoResult.err => repos_loop g max_issues rest acc
    | RepoResult.ok get_label =>
      match labels_loop get_label repo_name max_issues LABELS_TO_SEARCH acc with
      | (acc', true) => acc'
      | (acc', false) => repos_loop g max_issues rest acc'

/-- `find_good_issues(g, max_issues=5)`. -/
def find_good_issues (g : String → RepoResult) (max_issues : Int := 5) :
    List IssueRecord :=
  repos_loop g max_issues TARGET_REPOS []

/-- Specification-side enumeration: the records of the non-pull-request
issues of one listed batch, in order. -/
def nonpr_records (repo_name label : String) (issues : List Issue) :
    List IssueRecord :=
  (issues.filter (fun i => i.pull_request.isNone)).map (record_of repo_name label)

/-- Specification-side enumeration: the records one repo/label combination
can contribute — the non-pull-request issues among the first 2 returned. -/
def issue_records (repo_name label : String) (issues : List Issue) :
    List IssueRecord :=
  nonpr_records repo_name label (issues.take 2)

/-- Specification-side enumeration over the labels of one repository, in
label-list order; an errored label query contributes nothing. -/
def label_records (get_label : String → LabelResult) (repo_name : String) :
    List String → List IssueRecord
  | [] => []
  | label :: rest =>
    (match get_label label with
      | LabelResult.err => []
      | LabelResult.ok issues => issue_records repo_name label issues)
      ++ label_records get_label repo_name rest

/-- Specification-side enumeration of every record available to
`find_good_issues`, in repository-major, label-minor order; an inaccessible
repository contributes nothing. -/
def all_records (g : String → RepoResult) : List String → List IssueRecord
  | [] => []
  | repo_name :: rest =>
    (match g repo_name with
      | RepoResult.err => []
      | RepoResult.ok get_label =>
        label_records get_label repo_name LABELS_TO_SEARCH)
      ++ all_records g rest

/-- The number of records the accumulator must reach for the
`len(issues_found) >= max_issues` test to fire: the test runs only after an
append, so the effective cap is never below 1. -/
def cap (max_issues : Int) : Nat := max 1 max_issues.toNat

lemma cap_pos (m : Int) : 0 < cap m := by
  unfold cap; omega

lemma cap_le_iff (m : Int) (n : Nat) (h : 1 ≤ n) :
    (m ≤ (n : Int)) ↔ cap m ≤ n := by
  unfold cap; omega

lemma nonpr_records_cons (rn l : String) (i : Issue) (rest : List Issue) :
    nonpr_records rn l (i :: rest) =
      (if i.pull_request.isNone then [record_of rn l i] else [])
        ++ nonpr_records rn l rest := by
  by_cases h : i.pull_request.isNone <;>
    simp [nonpr_records, List.filter_cons, h]


lemma issues_loop_eq (rn l : String) (m : Int) (issues : List Issue)
    (acc : List IssueRecord) (h : acc.length < cap m) :
    issues_loop rn l m issues acc =
      ((acc ++ nonpr_records rn l issues).take (cap m),
        decide (cap m ≤ (acc ++ nonpr_records rn l issues).length)) := by
  induction issues generalizing acc with
  | nil =>
    simp only [issues_loop, nonpr_records, List.filter_nil, List.map_nil,
      List.append_nil]
    rw [List.take_of_length_le (Nat.le_of_lt h)]
    simp [Nat.not_le.mpr h]
  | cons i rest ih =>
    by_cases hpr : i.pull_request.isSome
    · rw [show nonpr_records rn l (i :: rest) = nonpr_records rn l rest by
        simp [Option.isSome_iff_exists] at hpr
        obtain ⟨u, hu⟩ := hpr
        simp [nonpr_records_cons, hu]]
      simp only [issues_loop, hpr, if_true]
      exact ih acc h
    · have hnone : i.pull_request.isNone := by
        simp [Option.isNone_iff_eq_none, ← Option.not_isSome_iff_eq_none, hpr]
      rw [show nonpr_records rn l (i :: rest)
            = [record_of rn l i] ++ nonpr_records rn l rest by
          simp [nonpr_records_cons, hnone]]
      simp only [issues_loop, hpr, if_false, Bool.false_eq_true]
      set acc' := acc ++ [record_of rn l i] with hacc'
      have hlen' : acc'.length = acc.length + 1 := by simp [hacc']
      have hone : 1 ≤ acc'.length := by omega
      by_cases hcap : m ≤ (acc'.length : Int)
      · have hcap' : cap m ≤ acc'.length := (cap_le_iff m _ hone).mp hcap
        have hceq : cap m = acc'.length := by omega
        simp only [hcap, if_true]
        have htake :
            (acc ++ ([record_of rn l i] ++ nonpr_records rn l rest)).take (cap m)
              = acc' := by
          rw [← List.append_assoc, ← hacc', hceq]
          exact List.take_left' rfl
        have hflag : cap m ≤
            (acc ++ ([record_of rn l i] ++ nonpr_records rn l rest)).length := by
          rw [← List.append_assoc, ← hacc']
          simp only [List.length_append]
          omega
        rw [htake, decide_eq_true hflag]
      · have hcap' : ¬ cap m ≤ acc'.length := fun hc =>
          hcap ((cap_le_iff m _ hone).mpr hc)
        have hlt : acc'.length < cap m := Nat.lt_of_not_le hcap'
        simp only [hcap, if_false]
        rw [ih acc' hlt, ← List.append_assoc, ← hacc']

lemma labels_loop_eq (f : String → LabelResult) (rn : String) (m : Int)
    (labels : List String) (acc : List IssueRecord) (h : acc.length < cap m) :
    labels_loop f rn m labels acc =
      ((acc ++ label_records f rn labels).take (cap m),
        decide (cap m ≤ (acc ++ label_records f rn labels).length)) := by
  induction labels generalizing acc with
  | nil =>
    simp only [labels_loop, label_records, List.append_nil]
    rw [List.take_of_length_le (Nat.le_of_lt h)]
    simp [Nat.not_le.mpr h]
  | cons label rest ih =>
    cases hf : f label with
    | err =>
      simp only [labels_loop, label_records, hf, List.nil_append]
      exact ih acc h
    | ok issues =>
      simp only [labels_loop, label_records, hf]
      rw [issues_loop_eq rn label m (issues.take 2) acc h]
      have hsmall : nonpr_records rn label (issues.take 2)
          = issue_records rn label issues := rfl
      by_cases hcap : cap m ≤ (acc ++ nonpr_records rn label (issues.take 2)).length
      · rw [decide_eq_true hcap]
        have hflag : cap m ≤
            (acc ++ (issue_records rn label issues ++ label_records f rn rest)).length := by
          rw [← hsmall] at *
          simp only [List.length_append] at *
          omega
        have htake :
            (acc ++ (issue_records rn label issues ++ label_records f rn rest)).take (cap m)
              = (acc ++ nonpr_records rn label (issues.take 2)).take (cap m) := by
          rw [← List.append_assoc, hsmall]
          exact List.take_append_of_le_length (hsmall ▸ hcap)
        show ((acc ++ nonpr_records rn label (issues.take 2)).take (cap m), true)
          = _
        rw [htake, decide_eq_true hflag]
      · rw [decide_eq_false hcap]
        have hlt : (acc ++ nonpr_records rn label (issues.take 2)).length < cap m :=
          Nat.lt_of_not_le hcap
        show labels_loop f rn m rest
            ((acc ++ nonpr_records rn label (issues.take 2)).take (cap m)) = _
        rw [List.take_of_length_le (Nat.le_of_lt hlt)]
        rw [ih _ hlt, ← List.append_assoc, hsmall]

lemma repos_loop_eq (g : String → RepoResult) (m : Int) (repos : List String)
    (acc : List IssueRecord) (h : acc.length < cap m) :
    repos_loop g m repos acc = (acc ++ all_records g repos).take (cap m) := by
  induction repos generalizing acc with
  | nil =>
    simp only [repos_loop, all_records, List.append_nil]
    exact (List.take_of_length_le (Nat.le_of_lt h)).symm
  | cons repo_name rest ih =>
    cases hg : g repo_name with
    | err =>
      simp only [repos_loop, all_records, hg, List.nil_append]
      exact ih acc h
    | ok get_label =>
      simp only [repos_loop, all_records, hg]
      rw [labels_loop_eq get_label repo_name m LABELS_TO_SEARCH acc h]
      by_cases hcap : cap m ≤
          (acc ++ label_records get_label repo_name LABELS_TO_SEARCH).length
      · rw [decide_eq_true hcap]
        show (acc ++ label_records get_label repo_name LABELS_TO_SEARCH).take (cap m)
          = _
        rw [← List.append_assoc]
        exact (List.take_append_of_le_length (by
          simpa using hcap)).symm
      · rw [decide_eq_false hcap]
        have hlt : (acc ++ label_records get_label repo_name LABELS_TO_SEARCH).length
            < cap m := Nat.lt_of_not_le hcap
        show repos_loop g m rest
            ((acc ++ label_records get_label repo_name LABELS_TO_SEARCH).take (cap m))
          = _
        rw [List.take_of_length_le (Nat.le_of_lt hlt), ih _ hlt,
          ← List.append_assoc]

lemma find_good_issues_eq (g : String → RepoResult) (m : Int) :
    find_good_issues g m = (all_records g TARGET_REPOS).take (cap m) := by
  unfold find_good_issues
  rw [repos_loop_eq g m TARGET_REPOS [] (by simpa using cap_pos m)]
  simp

/-- A comment on an issue, as the script reads it: the author login
(`comment.user.login`) and the body. -/
structure Comment where
  author : String
  body : String
deriving Repr, DecidableEq

/-- The API outcomes `analyze_and_comment` can observe for one issue:
whether `get_repo`/`get_issue`/`get_comments` succeed, the existing comment
list when they do, and whether `create_comment` succeeds.  An exception at
either point is caught by the function and makes it return `False`. -/
structure CommentCtx where
  fetch_ok : Bool
  comments : List Comment
  post_ok : Bool
deriving Repr, DecidableEq

/-- The documentation-offer comment template of `analyze_and_comment`,
verbatim. -/
def doc_comment_text : String :=
  "Hi! I\x27d like to help improve the documentation for this issue.\n\nBased on the issue description, I can:\n- Review and clarify existing documentation\n- Add code examples if needed\n- Improve formatting and readability\n\nLet me know if you\x27d like me to submit a PR with these improvements!"

/-- The generic-interest comment template of `analyze_and_comment`,
verbatim. -/
def generic_comment_text : String :=
  "Hi! I\x27m interested in working on this issue.\n\nI have experience with data engineering and would like to contribute. Could you provide any additional context or point me to relevant code sections?\n\nThanks!"

/-- Character-list substring containment, the meaning of Python
`needle in hay` on strings. -/
def contains_chars (needle : List Char) : List Char → Bool
  | [] => needle.isEmpty
  | c :: rest => needle.isPrefixOf (c :: rest) || contains_chars needle rest

/-- `'documentation' in issue_info['label'].lower()`: substring containment
after per-character lowercasing. -/
def label_mentions_documentation (label : String) : Bool :=
  contains_chars "documentation".toList (label.toList.map Char.toLower)

/-- The comment body `analyze_and_comment` selects for a label. -/
def comment_text_for (label : String) : String :=
  if label_mentions_documentation label then doc_comment_text
  else generic_comment_text

/-- `analyze_and_comment(g, issue_info)` over a `CommentCtx`: on a fetch
exception return `False`; if any existing comment is authored by the
authenticated login, return `False` without posting; otherwise post the
label-selected template (returning `False` if `create_comment` raises).
The second component is the issue's comment list after the call. -/
def analyze_and_comment (self_login : String) (issue_info : IssueRecord)
    (ctx : CommentCtx) : Bool × List Comment :=
  if ctx.fetch_ok = false then (false, ctx.comments)
  else if ctx.comments.any (fun c => c.author == self_login) then
    (false, ctx.comments)
  else if ctx.post_ok then
    (true, ctx.comments ++ [⟨self_login, comment_text_for issue_info.label⟩])
  else (false, ctx.comments)

/-- One entry of `contributions.json`: the run timestamp and the full list
of found issues. -/
structure LogEntry where
  date : String
  issues : List IssueRecord
deriving Repr, DecidableEq

/-- `save_contribution_log(issues)`: read the existing log if the file
exists (modelled by its parsed value; `none` = no file), else start from
`[]`; append `{date, issues}`; the result is the array written back. -/
def save_contribution_log (now : String) (issues : List IssueRecord)
    (file : Option (List LogEntry)) : List LogEntry :=
  (match file with
    | some log => log
    | none => []) ++ [{ date := now, issues := issues }]

/-- Python truthiness of `os.getenv` results: `None` and the empty string
are falsy. -/
def truthy_env : Option String → Bool
  | none => false
  | some s => !(s == "")

/-- `get_github_client`'s token selection:
`os.getenv('GH_PAT') or os.getenv('GITHUB_TOKEN')`, then `sys.exit(1)`
(modelled as `none`) when the result is falsy. -/
def get_token (gh_pat github_token : Option String) : Option String :=
  let token := if truthy_env gh_pat then gh_pat else github_token
  if truthy_env token then token else none

/-- The environment `main` runs in: the two credential variables, the
authenticated login, the issue-listing API, the comment-related API
outcomes per issue, the current timestamp, and the parsed log file
(`none` = absent). -/
structure Env where
  gh_pat : Option String
  github_token : Option String
  login : String
  api : String → RepoResult
  comment_ctx : IssueRecord → CommentCtx
  now : String
  file : Option (List LogEntry)

/-- The observable outcome of one run of `main`: the process exit status,
the log file after the run (`none` = still absent), the issue selected for
commenting, and whether `analyze_and_comment` reported success. -/
structure MainResult where
  exit_code : Nat
  file : Option (List LogEntry)
  target : Option IssueRecord
  commented : Bool
deriving Repr, DecidableEq

/-- `main()`: load the credential (exit 1 when missing), find up to 3
issues, stop without logging when none are found, otherwise comment on the
first found issue and save the log of all found issues; every
non-credential path exits 0. -/
def main_run (env : Env) : MainResult :=
  match get_token env.gh_pat env.github_token with
  | none =>
    { exit_code := 1, file := env.file, target := none, commented := false }
  | some _ =>
    let issues := find_good_issues env.api 3
    match issues with
    | [] =>
      { exit_code := 0, file := env.file, target := none, commented := false }
    | selected :: rest =>
      let ok := (analyze_and_comment env.login selected
        (env.comment_ctx selected)).1
      { exit_code := 0
        file := some (save_contribution_log env.now (selected :: rest) env.file)
        target := some selected
        commented := ok }

lemma issues_loop_all_pr (rn l : String) (m : Int) (issues : List Issue)
    (acc : List IssueRecord)
    (h : issues.all (fun i => i.pull_request.isSome) = true) :
    issues_loop rn l m issues acc = (acc, false) := by
  induction issues with
  | nil => rfl
  | cons i rest ih =>
    rw [List.all_cons, Bool.and_eq_true] at h
    simp only [issues_loop, h.1, if_true]
    exact ih h.2

lemma get_token_eq_none_iff (a b : Option String) :
    get_token a b = none ↔ (truthy_env a = false ∧ truthy_env b = false) := by
  unfold get_token
  cases ha : truthy_env a
  · cases hb : truthy_env b
    · simp [ha, hb]
    · have hne : b ≠ none := by
        intro hn
        rw [hn] at hb
        simp [truthy_env] at hb
      simp [ha, hb, hne]
  · have hne : a ≠ none := by
      intro hn
      rw [hn] at ha
      simp [truthy_env] at ha
    simp [ha, hne]

/-- A single open non-pull-request issue, for concrete instantiations. -/
def issue_one : Issue :=
  { number := 1, title := "t", url := "u", body := none, pull_request := none }

/-- An issue whose `pull_request` attribute is non-null, i.e. really a
pull request. -/
def issue_pr : Issue :=
  { number := 2, title := "p", url := "v", body := none,
    pull_request := some () }

/-- The record the finder builds from `issue_one` under the first target
repository and the first label. -/
def record_one : IssueRecord :=
  record_of "apache/airflow" "good first issue" issue_one

/-- A concrete API: only the first target repository answers, with a single
non-pull-request issue under the first label and errors elsewhere. -/
def api_one : String → RepoResult := fun repo_name =>
  if repo_name = "apache/airflow" then
    RepoResult.ok (fun label =>
      if label = "good first issue" then LabelResult.ok [issue_one]
      else LabelResult.err)
  else RepoResult.err

/-- A concrete label listing whose first label returns two pull requests. -/
def get_label_pr : String → LabelResult := fun label =>
  if label = "good first issue" then LabelResult.ok [issue_pr, issue_pr]
  else LabelResult.err

/-- A label listing that always raises. -/
def get_label_err : String → LabelResult := fun _ => LabelResult.err

/-- An API where every repository access raises. -/
def api_err : String → RepoResult := fun _ => RepoResult.err

/-- An existing comment by the authenticated identity. -/
def dup_comment : Comment := { author := "octocat", body := "hi" }

/-- Comment-API outcomes for an issue that already carries a comment by the
authenticated identity. -/
def ctx_dup : CommentCtx :=
  { fetch_ok := true, comments := [dup_comment], post_ok := true }

/-- Comment-API outcomes for an issue with no comments at all. -/
def ctx_empty : CommentCtx :=
  { fetch_ok := true, comments := [], post_ok := true }

/-- Comment-API outcomes assigning `ctx_empty` to every issue. -/
def ctx_of_any : IssueRecord → CommentCtx := fun _ => ctx_empty

/-- A documentation-labelled record. -/
def record_doc : IssueRecord :=
  { repo := "apache/airflow", number := 7, title := "Docs drift", url := "w",
    label := "Documentation", body := "" }

/-- Another record with the same label as `record_doc` but different title,
number and body. -/
def record_doc2 : IssueRecord :=
  { repo := "apache/airflow", number := 8, title := "Other docs", url := "x",
    label := "Documentation", body := "different" }

/-- A complete environment in which the run finds exactly one issue. -/
def env_one : Env :=
  { gh_pat := some "tok"
    github_token := none
    login := "octocat"
    api := api_one
    comment_ctx := ctx_of_any
    now := "2026-10-12T00:00:00"
    file := none }

/-- An environment where both credential variables are falsy (`GH_PAT`
unset, `GITHUB_TOKEN` set to the empty string). -/
def env_missing : Env :=
  { gh_pat := none
    github_token := some ""
    login := "octocat"
    api := api_one
    comment_ctx := ctx_of_any
    now := "2026-10-12T00:00:00"
    file := none }

/-- C1 (counterexample): the claim quantifies over every `max_issues` value,
but at `max_issues = 0` with one non-pull-request issue available the finder
returns one record, not `min 0 1 = 0`, because the cap test
`len(issues_found) >= max_issues` runs only after an append. -/
theorem c1_counterexample :
    ¬ ((find_good_issues api_one 0).length
        = min ((0 : Int).toNat) (all_records api_one TARGET_REPOS).length) := by
  decide

/-- C1 (amended): for every positive `max_issues` and every sequence of API
responses, `find_good_issues` returns exactly
`min max_issues available_non_PR_issues` records, where the available
records are those enumerated by `all_records` — at most the first 2 issues
per repo-by-label combination, pull requests excluded. -/
theorem c1_length_eq_min (g : String → RepoResult) (m : Int) (h : 1 ≤ m) :
    (find_good_issues g m).length
      = min m.toNat (all_records g TARGET_REPOS).length := by
  rw [find_good_issues_eq, List.length_take]
  congr 1
  unfold cap
  omega

/-- C1 witness: the amended statement at the one-issue API with
`max_issues = 3`. -/
theorem c1_witness :
    (find_good_issues api_one 3).length
      = min ((3 : Int).toNat) (all_records api_one TARGET_REPOS).length :=
  c1_length_eq_min api_one 3 (by decide)

/-- C2: for every positive `max_issues`, the finder returns exactly the
`max_issues`-prefix of `all_records`, the enumeration in repository-major,
label-minor fixed list order that inspects only the first 2 issues per
repo-by-label query and skips issues whose pull-request reference is
non-null; in particular the early return on reaching the cap keeps exactly
the records encountered first in that order. -/
theorem c2_prefix_order (g : String → RepoResult) (m : Int) (h : 1 ≤ m) :
    find_good_issues g m = (all_records g TARGET_REPOS).take m.toNat := by
  rw [find_good_issues_eq]
  congr 1
  unfold cap
  omega

/-- C2 witness: the prefix equation at the one-issue API with
`max_issues = 3`. -/
theorem c2_witness :
    find_good_issues api_one 3
      = (all_records api_one TARGET_REPOS).take ((3 : Int).toNat) :=
  c2_prefix_order api_one 3 (by decide)

/-- C8: an error while listing issues for one label is caught and that
label skipped, keeping the records accumulated so far; an error accessing a
repository is caught and that repository skipped; in both cases the loop
moves directly to the next item, with no retry of the failed call. -/
theorem c8_errors_skip :
    (∀ (f : String → LabelResult) (rn : String) (m : Int) (label : String)
        (rest : List String) (acc : List IssueRecord),
        f label = LabelResult.err →
        labels_loop f rn m (label :: rest) acc = labels_loop f rn m rest acc)
    ∧ (∀ (g : String → RepoResult) (m : Int) (repo_name : String)
        (rest : List String) (acc : List IssueRecord),
        g repo_name = RepoResult.err →
        repos_loop g m (repo_name :: rest) acc = repos_loop g m rest acc) := by
  constructor
  · intro f rn m label rest acc hf
    simp [labels_loop, hf]
  · intro g m repo_name rest acc hg
    simp [repos_loop, hg]

/-- C8 witness: both skip equations at concrete erroring APIs. -/
theorem c8_witness :
    labels_loop get_label_err "apache/airflow" 3 ["good first issue"] []
      = labels_loop get_label_err "apache/airflow" 3 [] []
    ∧ repos_loop api_err 3 ["apache/airflow"] [] = repos_loop api_err 3 [] [] :=
  ⟨c8_errors_skip.1 get_label_err "apache/airflow" 3 "good first issue" [] [] rfl,
    c8_errors_skip.2 api_err 3 "apache/airflow" [] [] rfl⟩

/-- C9: a repo/label combination whose first 2 returned issues both carry a
non-null pull-request reference contributes zero records, and the label
loop proceeds to the next label with the accumulator unchanged and no
error. -/
theorem c9_all_pr_combination (f : String → LabelResult) (rn : String)
    (m : Int) (label : String) (rest : List String) (acc : List IssueRecord)
    (issues : List Issue) (hf : f label = LabelResult.ok issues)
    (hpr : (issues.take 2).all (fun i => i.pull_request.isSome) = true) :
    issue_records rn label issues = []
    ∧ labels_loop f rn m (label :: rest) acc = labels_loop f rn m rest acc := by
  constructor
  · unfold issue_records nonpr_records
    rw [List.filter_eq_nil_iff.mpr, List.map_nil]
    intro i hi
    have hsome := List.all_eq_true.mp hpr i hi
    simp only [Option.isNone_iff_eq_none]
    intro hnone
    rw [hnone] at hsome
    simp at hsome
  · simp only [labels_loop, hf]
    rw [issues_loop_all_pr rn label m (issues.take 2) acc hpr]

/-- C9 witness: the all-pull-request combination at a concrete listing. -/
theorem c9_witness :
    issue_records "apache/airflow" "good first issue" [issue_pr, issue_pr] = []
    ∧ labels_loop get_label_pr "apache/airflow" 3
        ["good first issue", "documentation"] []
      = labels_loop get_label_pr "apache/airflow" 3 ["documentation"] [] :=
  c9_all_pr_combination get_label_pr "apache/airflow" 3 "good first issue"
    ["documentation"] [] [issue_pr, issue_pr] rfl (by decide)

/-- C10: with non-positive `max_issues` and at least one non-pull-request
issue available, `find_good_issues` returns a one-element list (the first
available record) rather than an empty list, because the cap comparison is
evaluated only after a record has been appended. -/
theorem c10_nonpositive_cap (g : String → RepoResult) (m : Int) (hm : m ≤ 0)
    (hne : all_records g TARGET_REPOS ≠ []) :
    find_good_issues g m = (all_records g TARGET_REPOS).take 1
    ∧ (find_good_issues g m).length = 1 := by
  have hcap : cap m = 1 := by
    unfold cap
    omega
  constructor
  · rw [find_good_issues_eq, hcap]
  · rw [find_good_issues_eq, hcap, List.length_take]
    have hpos : 0 < (all_records g TARGET_REPOS).length :=
      List.length_pos.mpr hne
    omega

/-- C10 witness: `max_issues = 0` at the one-issue API yields one record. -/
theorem c10_witness :
    find_good_issues api_one 0 = (all_records api_one TARGET_REPOS).take 1
    ∧ (find_good_issues api_one 0).length = 1 :=
  c10_nonpositive_cap api_one 0 (by decide) (by decide)

/-- C3: on an issue already carrying a comment by the authenticated
identity, `analyze_and_comment` returns `false` and leaves the comment
list unchanged; since the list is unchanged, any second call on the same
issue — whatever its fetch/post outcomes — is also a `false` no-op, so two
calls never produce two comments from that identity. -/
theorem c3_duplicate_guard (self_login : String) (info : IssueRecord)
    (ctx : CommentCtx)
    (hdup : ctx.comments.any (fun c => c.author == self_login) = true) :
    analyze_and_comment self_login info ctx = (false, ctx.comments)
    ∧ (∀ ctx₂ : CommentCtx, ctx₂.comments = ctx.comments →
        analyze_and_comment self_login info ctx₂ = (false, ctx.comments)) := by
  have hgen : ∀ ctx₂ : CommentCtx, ctx₂.comments = ctx.comments →
      analyze_and_comment self_login info ctx₂ = (false, ctx₂.comments) := by
    intro ctx₂ h₂
    unfold analyze_and_comment
    cases hfo : ctx₂.fetch_ok
    · simp
    · rw [h₂]
      simp [hdup]
  constructor
  · exact hgen ctx rfl
  · intro ctx₂ h₂
    rw [← h₂]
    exact hgen ctx₂ h₂

/-- C3 witness: on `ctx_dup`, whose single comment is authored by the
authenticated login, the call and a repeated call (here with a failing
fetch) are both `false` no-ops. -/
theorem c3_witness :
    analyze_and_comment "octocat" record_one ctx_dup = (false, ctx_dup.comments)
    ∧ analyze_and_comment "octocat" record_one
        { fetch_ok := false, comments := [dup_comment], post_ok := true }
      = (false, ctx_dup.comments) :=
  ⟨(c3_duplicate_guard "octocat" record_one ctx_dup (by decide)).1,
    (c3_duplicate_guard "octocat" record_one ctx_dup (by decide)).2
      { fetch_ok := false, comments := [dup_comment], post_ok := true } rfl⟩

/-- C4: when the fetch succeeds, no duplicate comment exists and the post
succeeds, the posted body depends only on the label: the fixed
documentation-offer template when the lowercased label contains
`documentation`, the fixed generic-interest template otherwise; records
differing only outside the label field produce identical calls (the
templates embed neither title nor body). -/
theorem c4_template_by_label (self_login : String) (info : IssueRecord)
    (ctx : CommentCtx) (hfetch : ctx.fetch_ok = true)
    (hpost : ctx.post_ok = true)
    (hnodup : ctx.comments.any (fun c => c.author == self_login) = false) :
    analyze_and_comment self_login info ctx =
      (true, ctx.comments ++
        [{ author := self_login
           body := if label_mentions_documentation info.label
             then doc_comment_text else generic_comment_text }])
    ∧ (∀ info₂ : IssueRecord, info₂.label = info.label →
        analyze_and_comment self_login info₂ ctx
          = analyze_and_comment self_login info ctx) := by
  constructor
  · unfold analyze_and_comment comment_text_for
    simp [hfetch, hnodup, hpost]
  · intro info₂ h₂
    unfold analyze_and_comment comment_text_for
    rw [h₂]

/-- C4 witness: on a `Documentation`-labelled record with no existing
comments the documentation template is posted, and a record with the same
label but different title, number and body produces the same call. -/
theorem c4_witness :
    analyze_and_comment "octocat" record_doc ctx_empty =
      (true, ctx_empty.comments ++
        [{ author := "octocat"
           body := if label_mentions_documentation record_doc.label
             then doc_comment_text else generic_comment_text }])
    ∧ analyze_and_comment "octocat" record_doc2 ctx_empty
      = analyze_and_comment "octocat" record_doc ctx_empty :=
  ⟨(c4_template_by_label "octocat" record_doc ctx_empty rfl rfl (by decide)).1,
    (c4_template_by_label "octocat" record_doc ctx_empty rfl rfl (by decide)).2
      record_doc2 rfl⟩

/-- C5: starting from no log file, saving with issues `e1` and then `e2`
yields exactly the two entries in order, each carrying its input issue list
unchanged; and saving onto any existing log appends one entry, leaving all
existing entries in place (the JSON encode/parse round-trip of these
records is modelled as the identity). -/
theorem c5_log_round_trip (t1 t2 t : String)
    (e1 e2 e : List IssueRecord) (log : List LogEntry) :
    save_contribution_log t2 e2 (some (save_contribution_log t1 e1 none))
      = [{ date := t1, issues := e1 }, { date := t2, issues := e2 }]
    ∧ (save_contribution_log t2 e2
        (some (save_contribution_log t1 e1 none))).map LogEntry.issues
      = [e1, e2]
    ∧ save_contribution_log t e (some log)
      = log ++ [{ date := t, issues := e }] := by
  refine ⟨?_, ?_, ?_⟩ <;> simp [save_contribution_log]

/-- C6: with a credential present, `main_run` stops without touching the
log file when the finder (called with `max_issues = 3`) returns nothing;
otherwise it targets exactly the first found record, attempts the comment
on it, and writes a log entry for all found records whatever the comment
outcome was. -/
theorem c6_orchestration (env : Env) (t : String)
    (htok : get_token env.gh_pat env.github_token = some t) :
    (find_good_issues env.api 3 = [] →
      main_run env =
        { exit_code := 0, file := env.file, target := none,
          commented := false })
    ∧ (∀ (selected : IssueRecord) (rest : List IssueRecord),
        find_good_issues env.api 3 = selected :: rest →
        main_run env =
          { exit_code := 0
            file := some (save_contribution_log env.now (selected :: rest)
              env.file)
            target := some selected
            commented := (analyze_and_comment env.login selected
              (env.comment_ctx selected)).1 }) := by
  constructor
  · intro hempty
    unfold main_run
    rw [htok, hempty]
  · intro selected rest hfind
    unfold main_run
    rw [htok, hfind]

/-- C6 witness: in `env_one` the finder returns exactly `[record_one]`, so
the run targets it and writes the one-entry log. -/
theorem c6_witness :
    main_run env_one =
      { exit_code := 0
        file := some (save_contribution_log env_one.now [record_one]
          env_one.file)
        target := some record_one
        commented := (analyze_and_comment env_one.login record_one
          (env_one.comment_ctx record_one)).1 } :=
  (c6_orchestration env_one "tok" rfl).2 record_one [] (by decide)

/-- C7: the run exits 1 exactly when both credential variables are unset or
empty; the exit status is always 0 or 1; and in the missing-credential case
the outcome is independent of the issue-listing and comment APIs — no
network observation can change it. -/
theorem c7_exit_codes (env : Env) :
    ((main_run env).exit_code = 1 ↔
      (truthy_env env.gh_pat = false ∧ truthy_env env.github_token = false))
    ∧ ((main_run env).exit_code = 0 ∨ (main_run env).exit_code = 1)
    ∧ (truthy_env env.gh_pat = false → truthy_env env.github_token = false →
        ∀ (api : String → RepoResult) (cctx : IssueRecord → CommentCtx),
          main_run { env with api := api, comment_ctx := cctx }
            = main_run env) := by
  have hcode : ∀ e : Env, (main_run e).exit_code
      = if get_token e.gh_pat e.github_token = none then 1 else 0 := by
    intro e
    unfold main_run
    cases htok : get_token e.gh_pat e.github_token
    · simp
    · cases hfind : find_good_issues e.api 3 <;> simp [htok, hfind]
  refine ⟨?_, ?_, ?_⟩
  · rw [hcode env, ← get_token_eq_none_iff]
    by_cases hnone : get_token env.gh_pat env.github_token = none <;>
      simp [hnone]
  · rw [hcode env]
    by_cases hnone : get_token env.gh_pat env.github_token = none <;>
      simp [hnone]
  · intro h1 h2 api cctx
    have hnone : get_token env.gh_pat env.github_token = none :=
      (get_token_eq_none_iff _ _).mpr ⟨h1, h2⟩
    unfold main_run
    simp only []
    rw [show ({ env with api := api, comment_ctx := cctx } : Env).gh_pat
        = env.gh_pat from rfl,
      show ({ env with api := api, comment_ctx := cctx } : Env).github_token
        = env.github_token from rfl, hnone]

/-- C7 witness: in `env_missing` (unset `GH_PAT`, empty `GITHUB_TOKEN`) the
exit status is 1 and the outcome ignores the APIs entirely. -/
theorem c7_witness :
    ((main_run env_missing).exit_code = 1 ↔
      (truthy_env env_missing.gh_pat = false
        ∧ truthy_env env_missing.github_token = false))
    ∧ main_run { env_missing with api := api_err, comment_ctx := ctx_of_any }
      = main_run env_missing :=
  ⟨(c7_exit_codes env_missing).1,
    (c7_exit_codes env_missing).2.2 rfl rfl api_err ctx_of_any⟩
